import Mathlib

/-!
Shallow embedding of the accessibility-compliance engine of the wellness
portal repository, together with proofs of the specification claims.

Embedded code:
* colorContrast utilities (`hexToRgb`, `getLuminance`, `getContrastRatio`,
  `meetsWCAGAA`) — contrast evaluator;
* `validateTouchTarget` (src/lib/mobileAccessibility.ts) — touch-target audit;
* `focusUtils.trapFocus` (src/lib/accessibility.ts) — focus trap;
* `handleKeyDown` of `useKeyboardShortcuts` — keyboard-shortcut dispatch;
* `announce` of `useScreenReaderAnnouncement` — status announcer.

JavaScript numbers are modelled as real numbers (`ℝ`) where the source
computes with `Math.pow`, and as rationals (`ℚ`) where only comparisons and
rounding occur.  DOM elements are modelled by opaque numeric identifiers.
-/

/--
One character of the regex character class `[a-f\d]` with the `i` flag,
expressed on the character code: ASCII `0`-`9` (48-57), `a`-`f` (97-102)
or `A`-`F` (65-70).
-/
def isHexDigitCode (n : Nat) : Bool :=
  decide ((48 ≤ n ∧ n ≤ 57) ∨ (97 ≤ n ∧ n ≤ 102) ∨ (65 ≤ n ∧ n ≤ 70))

/-- Value of a hex digit as `parseInt(-, 16)` assigns it, on character codes. -/
def hexDigitValCode (n : Nat) : Nat :=
  if 48 ≤ n ∧ n ≤ 57 then n - 48
  else if 97 ≤ n then n - 97 + 10
  else n - 65 + 10

def isHexDigitChar (c : Char) : Bool :=
  isHexDigitCode c.toNat

def hexDigitVal (c : Char) : Nat :=
  hexDigitValCode c.toNat

/-- The optional leading `#` of the regex `/^#?([a-f\d]{2})([a-f\d]{2})([a-f\d]{2})$/i`. -/
def stripHash (cs : List Char) : List Char :=
  match cs with
  | '#' :: rest => rest
  | cs => cs

/-- An sRGB triple as returned by `hexToRgb`. -/
structure RGB where
  r : Nat
  g : Nat
  b : Nat
deriving DecidableEq

/--
Body of `hexToRgb` after the optional hash has been removed: the regex
demands exactly six hex digits, and each captured two-digit group is parsed
with base 16.
-/
def parseHex6 (cs : List Char) : Option RGB :=
  match cs with
  | [c1, c2, c3, c4, c5, c6] =>
      if isHexDigitChar c1 && isHexDigitChar c2 && isHexDigitChar c3 &&
         isHexDigitChar c4 && isHexDigitChar c5 && isHexDigitChar c6 then
        some ⟨16 * hexDigitVal c1 + hexDigitVal c2,
              16 * hexDigitVal c3 + hexDigitVal c4,
              16 * hexDigitVal c5 + hexDigitVal c6⟩
      else none
  | _ => none

/-- `hexToRgb` from the color contrast utilities: `null` becomes `none`. -/
def hexToRgb (hex : String) : Option RGB :=
  parseHex6 (stripHash hex.toList)

/--
The sRGB linearization step of `getLuminance`:
`c = c / 255; c <= 0.03928 ? c / 12.92 : Math.pow((c + 0.055) / 1.055, 2.4)`.
-/
noncomputable def linearizeChannel (c : Nat) : ℝ :=
  if (c : ℝ) / 255 ≤ 0.03928 then ((c : ℝ) / 255) / 12.92
  else (((c : ℝ) / 255 + 0.055) / 1.055) ^ (2.4 : ℝ)

/-- `getLuminance` from the color contrast utilities. -/
noncomputable def getLuminance (r g b : Nat) : ℝ :=
  0.2126 * linearizeChannel r + 0.7152 * linearizeChannel g +
    0.0722 * linearizeChannel b

/--
`getContrastRatio`: parses both colors, throws `Invalid hex color format`
when either parse fails, otherwise returns
`(brightest + 0.05) / (darkest + 0.05)`.
-/
noncomputable def getContrastRatio (color1 color2 : String) : Except String ℝ :=
  match hexToRgb color1, hexToRgb color2 with
  | some rgb1, some rgb2 =>
      .ok ((max (getLuminance rgb1.r rgb1.g rgb1.b) (getLuminance rgb2.r rgb2.g rgb2.b) + 0.05) /
           (min (getLuminance rgb1.r rgb1.g rgb1.b) (getLuminance rgb2.r rgb2.g rgb2.b) + 0.05))
  | _, _ => .error "Invalid hex color format"

/--
Modelled from the spec for the refinement claim about malformed input: a
well-formed color is an optional leading `#` followed by exactly six
case-insensitive hex digits.
-/
def isWellFormedHexColor (s : String) : Bool :=
  (stripHash s.toList).length == 6 && (stripHash s.toList).all isHexDigitChar

theorem hexDigitValCode_le_15 (n : Nat) (h : isHexDigitCode n = true) :
    hexDigitValCode n ≤ 15 := by
  simp only [isHexDigitCode, decide_eq_true_eq] at h
  simp only [hexDigitValCode]
  split <;> (try split) <;> omega

theorem parseHex6_eq_none_iff (cs : List Char) :
    parseHex6 cs = none ↔ ¬(cs.length = 6 ∧ cs.all isHexDigitChar = true) := by
  rcases cs with _ | ⟨a, _ | ⟨b, _ | ⟨c, _ | ⟨d, _ | ⟨e, _ | ⟨f, _ | ⟨g, t⟩⟩⟩⟩⟩⟩⟩
  · simp [parseHex6]
  · simp [parseHex6]
  · simp [parseHex6]
  · simp [parseHex6]
  · simp [parseHex6]
  · simp [parseHex6]
  · cases hA : isHexDigitChar a <;> cases hB : isHexDigitChar b <;>
      cases hC : isHexDigitChar c <;> cases hD : isHexDigitChar d <;>
      cases hE : isHexDigitChar e <;> cases hF : isHexDigitChar f <;>
      simp [parseHex6, hA, hB, hC, hD, hE, hF]
  · simp only [parseHex6]
    simp [List.all_cons]

theorem hexToRgb_eq_none_iff (s : String) :
    hexToRgb s = none ↔ isWellFormedHexColor s = false := by
  rw [hexToRgb, parseHex6_eq_none_iff, isWellFormedHexColor]
  by_cases hl : (stripHash s.toList).length = 6
  · by_cases ha : (stripHash s.toList).all isHexDigitChar = true
    · simp [hl, ha]
    · simp [hl, ha]
  · simp [hl]

theorem hexDigitVal_le_15 (c : Char) (h : isHexDigitChar c = true) :
    hexDigitVal c ≤ 15 :=
  hexDigitValCode_le_15 c.toNat h

theorem hexToRgb_isWellFormed (s : String) (rgb : RGB) (h : hexToRgb s = some rgb) :
    isWellFormedHexColor s = true := by
  rcases hw : isWellFormedHexColor s
  · rw [(hexToRgb_eq_none_iff s).mpr hw] at h
    cases h
  · rfl

theorem hexToRgb_channel_le (s : String) (rgb : RGB) (h : hexToRgb s = some rgb) :
    rgb.r ≤ 255 ∧ rgb.g ≤ 255 ∧ rgb.b ≤ 255 := by
  unfold hexToRgb at h
  generalize stripHash s.toList = cs at h
  rcases cs with _ | ⟨a, _ | ⟨b, _ | ⟨c, _ | ⟨d, _ | ⟨e, _ | ⟨f, _ | ⟨g, t⟩⟩⟩⟩⟩⟩⟩ <;>
    simp only [parseHex6] at h <;> try cases h
  split at h
  · rename_i hguard
    simp only [Bool.and_eq_true] at hguard
    obtain ⟨⟨⟨⟨⟨hA, hB⟩, hC⟩, hD⟩, hE⟩, hF⟩ := hguard
    have vA := hexDigitVal_le_15 a hA
    have vB := hexDigitVal_le_15 b hB
    have vC := hexDigitVal_le_15 c hC
    have vD := hexDigitVal_le_15 d hD
    have vE := hexDigitVal_le_15 e hE
    have vF := hexDigitVal_le_15 f hF
    cases h
    refine ⟨by simpa using by omega, by simpa using by omega, by simpa using by omega⟩
  · cases h

theorem linearizeChannel_nonneg (c : Nat) : 0 ≤ linearizeChannel c := by
  unfold linearizeChannel
  split
  · positivity
  · positivity

theorem linearizeChannel_le_one (c : Nat) (hc : c ≤ 255) : linearizeChannel c ≤ 1 := by
  have hcast : (c : ℝ) ≤ 255 := by exact_mod_cast hc
  have h255 : (c : ℝ) / 255 ≤ 1 := by
    rw [div_le_one (by norm_num)]
    exact hcast
  have h0 : (0 : ℝ) ≤ (c : ℝ) / 255 := by positivity
  unfold linearizeChannel
  split
  · rename_i hsmall
    rw [div_le_one (by norm_num)]
    linarith
  · have hb0 : (0 : ℝ) ≤ ((c : ℝ) / 255 + 0.055) / 1.055 := by positivity
    have hb1 : ((c : ℝ) / 255 + 0.055) / 1.055 ≤ 1 := by
      rw [div_le_one (by norm_num)]
      linarith
    exact Real.rpow_le_one hb0 hb1 (by norm_num)

theorem getLuminance_nonneg (r g b : Nat) : 0 ≤ getLuminance r g b := by
  unfold getLuminance
  have h1 := linearizeChannel_nonneg r
  have h2 := linearizeChannel_nonneg g
  have h3 := linearizeChannel_nonneg b
  linarith

theorem getLuminance_le_one (r g b : Nat) (hr : r ≤ 255) (hg : g ≤ 255)
    (hb : b ≤ 255) : getLuminance r g b ≤ 1 := by
  unfold getLuminance
  have h1 := linearizeChannel_le_one r hr
  have h2 := linearizeChannel_le_one g hg
  have h3 := linearizeChannel_le_one b hb
  have h1' := linearizeChannel_nonneg r
  have h2' := linearizeChannel_nonneg g
  have h3' := linearizeChannel_nonneg b
  linarith

theorem contrastFormula_bounds {L1 L2 : ℝ} (h1 : 0 ≤ L1) (h1' : L1 ≤ 1)
    (h2 : 0 ≤ L2) (h2' : L2 ≤ 1) :
    1 ≤ (max L1 L2 + 0.05) / (min L1 L2 + 0.05) ∧
      (max L1 L2 + 0.05) / (min L1 L2 + 0.05) ≤ 21 := by
  have hmin0 : 0 ≤ min L1 L2 := le_min h1 h2
  have hmax1 : max L1 L2 ≤ 1 := max_le h1' h2'
  have hmm : min L1 L2 ≤ max L1 L2 := min_le_max
  have hpos : 0 < min L1 L2 + 0.05 := by linarith
  constructor
  · rw [le_div_iff₀ hpos]
    linarith
  · rw [div_le_iff₀ hpos]
    linarith

theorem linearizeChannel_255 : linearizeChannel 255 = 1 := by
  unfold linearizeChannel
  rw [if_neg (by norm_num)]
  have hbase : (((255 : Nat) : ℝ) / 255 + 0.055) / 1.055 = 1 := by norm_num
  rw [hbase, Real.one_rpow]

theorem linearizeChannel_0 : linearizeChannel 0 = 0 := by
  unfold linearizeChannel
  rw [if_pos (by norm_num)]
  norm_num

theorem getLuminance_white : getLuminance 255 255 255 = 1 := by
  unfold getLuminance
  rw [linearizeChannel_255]
  norm_num

theorem getLuminance_black : getLuminance 0 0 0 = 0 := by
  unfold getLuminance
  rw [linearizeChannel_0]
  norm_num

/-- The exact maximum: white on black has contrast ratio 21. -/
theorem contrast_white_black : getContrastRatio "FFFFFF" "000000" = .ok 21 := by
  have h1 : hexToRgb "FFFFFF" = some ⟨255, 255, 255⟩ := by decide
  have h2 : hexToRgb "000000" = some ⟨0, 0, 0⟩ := by decide
  unfold getContrastRatio
  rw [h1, h2]
  show Except.ok ((max (getLuminance 255 255 255) (getLuminance 0 0 0) + 0.05) /
      (min (getLuminance 255 255 255) (getLuminance 0 0 0) + 0.05)) = Except.ok 21
  rw [getLuminance_white, getLuminance_black]
  rw [show max (1 : ℝ) 0 = 1 from max_eq_left (by norm_num),
    show min (1 : ℝ) 0 = 0 from min_eq_right (by norm_num)]
  norm_num

/--
Claim C8 — `getContrastRatio` is symmetric in its two arguments, and every
ratio it returns lies in the closed interval `[1, 21]`.
-/
theorem getContrastRatio_symm_range (c1 c2 : String) (r : ℝ)
    (h : getContrastRatio c1 c2 = .ok r) :
    getContrastRatio c2 c1 = .ok r ∧ 1 ≤ r ∧ r ≤ 21 := by
  unfold getContrastRatio at h ⊢
  rcases h1 : hexToRgb c1 with _ | rgb1 <;> rcases h2 : hexToRgb c2 with _ | rgb2 <;>
    rw [h1, h2] at h <;> cases h
  have hc1 := hexToRgb_channel_le c1 rgb1 h1
  have hc2 := hexToRgb_channel_le c2 rgb2 h2
  have hL1 : 0 ≤ getLuminance rgb1.r rgb1.g rgb1.b := getLuminance_nonneg _ _ _
  have hL1' : getLuminance rgb1.r rgb1.g rgb1.b ≤ 1 :=
    getLuminance_le_one _ _ _ hc1.1 hc1.2.1 hc1.2.2
  have hL2 : 0 ≤ getLuminance rgb2.r rgb2.g rgb2.b := getLuminance_nonneg _ _ _
  have hL2' : getLuminance rgb2.r rgb2.g rgb2.b ≤ 1 :=
    getLuminance_le_one _ _ _ hc2.1 hc2.2.1 hc2.2.2
  have hbounds := contrastFormula_bounds hL1 hL1' hL2 hL2'
  refine ⟨?_, hbounds.1, hbounds.2⟩
  have hsymm : (max (getLuminance rgb2.r rgb2.g rgb2.b) (getLuminance rgb1.r rgb1.g rgb1.b) + 0.05) /
      (min (getLuminance rgb2.r rgb2.g rgb2.b) (getLuminance rgb1.r rgb1.g rgb1.b) + 0.05) =
      (max (getLuminance rgb1.r rgb1.g rgb1.b) (getLuminance rgb2.r rgb2.g rgb2.b) + 0.05) /
      (min (getLuminance rgb1.r rgb1.g rgb1.b) (getLuminance rgb2.r rgb2.g rgb2.b) + 0.05) := by
    rw [max_comm, min_comm]
  exact congrArg Except.ok hsymm

/--
Claim C9 — `getContrastRatio` raises the invalid-color-format error iff at
least one input is not a well-formed 6-hex-digit color; on malformed input it
never returns a ratio, and on well-formed input it never raises.
-/
theorem getContrastRatio_error_iff (c1 c2 : String) :
    (getContrastRatio c1 c2 = .error "Invalid hex color format" ↔
      (isWellFormedHexColor c1 = false ∨ isWellFormedHexColor c2 = false)) ∧
    ((∃ r, getContrastRatio c1 c2 = .ok r) ↔
      (isWellFormedHexColor c1 = true ∧ isWellFormedHexColor c2 = true)) := by
  unfold getContrastRatio
  rcases h1 : hexToRgb c1 with _ | rgb1 <;> rcases h2 : hexToRgb c2 with _ | rgb2
  · simp [(hexToRgb_eq_none_iff c1).mp h1]
  · simp [(hexToRgb_eq_none_iff c1).mp h1]
  · simp [(hexToRgb_eq_none_iff c2).mp h2]
  · simp [hexToRgb_isWellFormed c1 rgb1 h1, hexToRgb_isWellFormed c2 rgb2 h2]

/-- The `level` field of `meetsWCAGAA`: one of `AAA`, `AA`, `Fail`. -/
inductive WCAGLevel where
  | AA
  | AAA
  | Fail
deriving DecidableEq

/-- Result object of `meetsWCAGAA`. -/
structure WCAGResult where
  passes : Bool
  ratio : ℝ
  required : ℝ
  level : WCAGLevel

/-- `Math.round(x * 100) / 100` — the two-decimal rounding used for reporting. -/
noncomputable def jsRound2 (x : ℝ) : ℝ :=
  ((⌊x * 100 + 1 / 2⌋ : ℤ) : ℝ) / 100

/--
`meetsWCAGAA` from the color contrast utilities.  The AA requirement is 3 for
large text and 4.5 otherwise; the AAA threshold is 4.5 for large text and 7
otherwise.  The `level` comparison uses the unrounded ratio; only the
reported `ratio` field is rounded.
-/
noncomputable def meetsWCAGAA (foreground background : String)
    (isLargeText : Bool) : Except String WCAGResult :=
  (getContrastRatio foreground background).map fun ratio =>
    let requiredRatio : ℝ := if isLargeText then 3 else 4.5
    let requiredRatioAAA : ℝ := if isLargeText then 4.5 else 7
    { passes := decide (requiredRatio ≤ ratio)
      ratio := jsRound2 ratio
      required := requiredRatio
      level := if requiredRatioAAA ≤ ratio then WCAGLevel.AAA
               else if requiredRatio ≤ ratio then WCAGLevel.AA
               else WCAGLevel.Fail }

theorem wcagLevelClassifier_iff (req aaa r : ℝ) (hra : req ≤ aaa) :
    (((if aaa ≤ r then WCAGLevel.AAA
       else if req ≤ r then WCAGLevel.AA else WCAGLevel.Fail) = WCAGLevel.AAA) ↔
      aaa ≤ r) ∧
    (((if aaa ≤ r then WCAGLevel.AAA
       else if req ≤ r then WCAGLevel.AA else WCAGLevel.Fail) = WCAGLevel.AA) ↔
      (req ≤ r ∧ r < aaa)) ∧
    (((if aaa ≤ r then WCAGLevel.AAA
       else if req ≤ r then WCAGLevel.AA else WCAGLevel.Fail) = WCAGLevel.Fail) ↔
      r < req) := by
  split_ifs with h1 h2
  · exact ⟨iff_of_true rfl h1,
      iff_of_false (by decide) (fun hc => absurd h1 (not_le.mpr hc.2)),
      iff_of_false (by decide) (by intro hc; linarith)⟩
  · exact ⟨iff_of_false (by decide) h1,
      iff_of_true rfl ⟨h2, not_le.mp h1⟩,
      iff_of_false (by decide) (by intro hc; linarith)⟩
  · exact ⟨iff_of_false (by decide) h1,
      iff_of_false (by decide) (fun hc => h2 hc.1),
      iff_of_true rfl (not_le.mp h2)⟩

/--
Claim C1 — for well-formed colors, the `level` of the `meetsWCAGAA` result is
`AAA` iff the unrounded ratio is at least the AAA threshold (7 for normal
text, 4.5 for large text, the values the claim attaches to the AA
requirement), `AA` iff the unrounded ratio reaches the required AA ratio
(4.5 normal, 3 large) but stays below the AAA threshold, and `Fail`
otherwise.
-/
theorem meetsWCAGAA_level_iff (fg bg : String) (large : Bool) (r : ℝ)
    (h : getContrastRatio fg bg = .ok r) :
    ∃ res : WCAGResult, meetsWCAGAA fg bg large = .ok res ∧
      res.required = (if large then (3 : ℝ) else 4.5) ∧
      (res.level = WCAGLevel.AAA ↔ (if large then (4.5 : ℝ) else 7) ≤ r) ∧
      (res.level = WCAGLevel.AA ↔
        ((if large then (3 : ℝ) else 4.5) ≤ r ∧ r < (if large then (4.5 : ℝ) else 7))) ∧
      (res.level = WCAGLevel.Fail ↔ r < (if large then (3 : ℝ) else 4.5)) := by
  have hra : (if large then (3 : ℝ) else 4.5) ≤ (if large then (4.5 : ℝ) else 7) := by
    cases large <;> norm_num
  have hcls := wcagLevelClassifier_iff (if large then (3 : ℝ) else 4.5)
    (if large then (4.5 : ℝ) else 7) r hra
  refine ⟨{ passes := decide ((if large then (3 : ℝ) else 4.5) ≤ r)
            ratio := jsRound2 r
            required := if large then (3 : ℝ) else 4.5
            level := if (if large then (4.5 : ℝ) else 7) ≤ r then WCAGLevel.AAA
                     else if (if large then (3 : ℝ) else 4.5) ≤ r then WCAGLevel.AA
                     else WCAGLevel.Fail },
    ?_, rfl, hcls.1, hcls.2.1, hcls.2.2⟩
  unfold meetsWCAGAA
  rw [h]
  rfl

/-- Witness for claim C1 at white on black (ratio exactly 21, normal text). -/
theorem meetsWCAGAA_level_iff_witness :
    ∃ res : WCAGResult, meetsWCAGAA "FFFFFF" "000000" false = .ok res ∧
      res.required = (if false then (3 : ℝ) else 4.5) ∧
      (res.level = WCAGLevel.AAA ↔ (if false then (4.5 : ℝ) else 7) ≤ (21 : ℝ)) ∧
      (res.level = WCAGLevel.AA ↔
        ((if false then (3 : ℝ) else 4.5) ≤ (21 : ℝ) ∧
          (21 : ℝ) < (if false then (4.5 : ℝ) else 7))) ∧
      (res.level = WCAGLevel.Fail ↔ (21 : ℝ) < (if false then (3 : ℝ) else 4.5)) :=
  meetsWCAGAA_level_iff "FFFFFF" "000000" false 21 contrast_white_black

/-- Witness for claim C8: the white/black pair, whose ratio is exactly 21. -/
theorem getContrastRatio_symm_range_witness :
    getContrastRatio "000000" "FFFFFF" = .ok 21 ∧ (1 : ℝ) ≤ 21 ∧ (21 : ℝ) ≤ 21 :=
  getContrastRatio_symm_range "FFFFFF" "000000" 21 contrast_white_black

/-- ASCII lowercasing on character codes: fold `A`-`Z` (65-90) onto `a`-`z`. -/
def charKeyCode (n : Nat) : Nat :=
  if 65 ≤ n ∧ n ≤ 90 then n + 32 else n

def charKey (c : Char) : Nat :=
  charKeyCode c.toNat

/--
The canonical spelling of a color string: drop one leading `#`, then take
the case-folded code of every remaining character.  Two strings denote the
same 6-hex-digit color exactly when their canonical spellings agree.
-/
def canonicalHexSpelling (s : String) : List Nat :=
  (stripHash s.toList).map charKey

theorem isHexDigitCode_charKeyCode (n : Nat) :
    isHexDigitCode (charKeyCode n) = isHexDigitCode n := by
  unfold charKeyCode isHexDigitCode
  split
  · rw [decide_eq_decide]
    constructor <;> intro h <;> omega
  · rfl

theorem hexDigitValCode_charKeyCode (n : Nat) :
    hexDigitValCode (charKeyCode n) = hexDigitValCode n := by
  unfold charKeyCode hexDigitValCode
  split_ifs <;> omega

/-- Proof-side mirror of `parseHex6` on case-folded character codes. -/
def parseHex6Keys (ns : List Nat) : Option RGB :=
  match ns with
  | [n1, n2, n3, n4, n5, n6] =>
      if isHexDigitCode n1 && isHexDigitCode n2 && isHexDigitCode n3 &&
         isHexDigitCode n4 && isHexDigitCode n5 && isHexDigitCode n6 then
        some ⟨16 * hexDigitValCode n1 + hexDigitValCode n2,
              16 * hexDigitValCode n3 + hexDigitValCode n4,
              16 * hexDigitValCode n5 + hexDigitValCode n6⟩
      else none
  | _ => none

theorem parseHex6_eq_keys (cs : List Char) :
    parseHex6 cs = parseHex6Keys (cs.map charKey) := by
  rcases cs with _ | ⟨a, _ | ⟨b, _ | ⟨c, _ | ⟨d, _ | ⟨e, _ | ⟨f, _ | ⟨g, t⟩⟩⟩⟩⟩⟩⟩
  · rfl
  · rfl
  · rfl
  · rfl
  · rfl
  · rfl
  · simp only [parseHex6, parseHex6Keys, List.map, isHexDigitChar, hexDigitVal, charKey]
    rw [isHexDigitCode_charKeyCode a.toNat, isHexDigitCode_charKeyCode b.toNat,
      isHexDigitCode_charKeyCode c.toNat, isHexDigitCode_charKeyCode d.toNat,
      isHexDigitCode_charKeyCode e.toNat, isHexDigitCode_charKeyCode f.toNat]
    split_ifs with hg
    · rw [hexDigitValCode_charKeyCode, hexDigitValCode_charKeyCode,
        hexDigitValCode_charKeyCode, hexDigitValCode_charKeyCode,
        hexDigitValCode_charKeyCode, hexDigitValCode_charKeyCode]
    · rfl
  · rfl

theorem hexToRgb_canonical (s u : String)
    (h : canonicalHexSpelling s = canonicalHexSpelling u) :
    hexToRgb s = hexToRgb u := by
  unfold canonicalHexSpelling at h
  unfold hexToRgb
  rw [parseHex6_eq_keys, parseHex6_eq_keys, h]

/--
Claim C10 — `getContrastRatio` is insensitive to the optional leading `#`
and to the letter case of the hex digits: any two spellings of the same
color give identical results.
-/
theorem getContrastRatio_spelling (s t u v : String)
    (hsu : canonicalHexSpelling s = canonicalHexSpelling u)
    (htv : canonicalHexSpelling t = canonicalHexSpelling v) :
    getContrastRatio s t = getContrastRatio u v := by
  unfold getContrastRatio
  rw [hexToRgb_canonical s u hsu, hexToRgb_canonical t v htv]

/--
Witness for claim C10: `FFFFFF`/`000000` versus `#ffffff`/`#000000`, which
succeed with ratio 21.
-/
theorem getContrastRatio_spelling_witness :
    getContrastRatio "FFFFFF" "000000" = getContrastRatio "#ffffff" "#000000" ∧
    getContrastRatio "FFFFFF" "000000" = .ok 21 :=
  ⟨getContrastRatio_spelling "FFFFFF" "000000" "#ffffff" "#000000"
    (by decide) (by decide), contrast_white_black⟩

/-- `TOUCH_TARGET_SIZE.MINIMUM` from src/lib/mobileAccessibility.ts. -/
def TOUCH_TARGET_SIZE_MINIMUM : ℚ := 44

/-- A measured bounding box (`getBoundingClientRect` width and height). -/
structure Rect where
  width : ℚ
  height : ℚ
deriving DecidableEq

/-- `Math.round` on a nonnegative measurement. -/
def jsRound (x : ℚ) : ℤ :=
  ⌊x + 1 / 2⌋

/-- The recommendation pushed when the width check fails. -/
def widthRecommendation (rect : Rect) : String :=
  let cur := jsRound rect.width
  s!"Increase width to at least {TOUCH_TARGET_SIZE_MINIMUM}px (current: {cur}px)"

/-- The recommendation pushed when the height check fails. -/
def heightRecommendation (rect : Rect) : String :=
  let cur := jsRound rect.height
  s!"Increase height to at least {TOUCH_TARGET_SIZE_MINIMUM}px (current: {cur}px)"

/-- Result object of `validateTouchTarget`. -/
structure TouchTargetResult where
  isValid : Bool
  actualSize : Rect
  recommendations : List String
deriving DecidableEq

/-- `validateTouchTarget` from src/lib/mobileAccessibility.ts. -/
def validateTouchTarget (rect : Rect) : TouchTargetResult :=
  let isWidthValid : Bool := decide (TOUCH_TARGET_SIZE_MINIMUM ≤ rect.width)
  let isHeightValid : Bool := decide (TOUCH_TARGET_SIZE_MINIMUM ≤ rect.height)
  { isValid := isWidthValid && isHeightValid
    actualSize := rect
    recommendations :=
      (if isWidthValid then [] else [widthRecommendation rect]) ++
      (if isHeightValid then [] else [heightRecommendation rect]) }

/--
Claim C5 — `isValid` holds iff both width and height reach the 44-pixel
minimum; the axes are judged independently, each failing axis contributing
exactly its own recommendation; 44 by 44 is compliant while 43 by 44 fails
with exactly one recommendation, about the width.
-/
theorem validateTouchTarget_spec (rect : Rect) :
    ((validateTouchTarget rect).isValid = true ↔
      (44 ≤ rect.width ∧ 44 ≤ rect.height)) ∧
    (validateTouchTarget rect).recommendations =
      ((if 44 ≤ rect.width then [] else [widthRecommendation rect]) ++
       (if 44 ≤ rect.height then [] else [heightRecommendation rect])) ∧
    (validateTouchTarget ⟨44, 44⟩).isValid = true ∧
    (validateTouchTarget ⟨44, 44⟩).recommendations = [] ∧
    (validateTouchTarget ⟨43, 44⟩).isValid = false ∧
    (validateTouchTarget ⟨43, 44⟩).recommendations =
      ["Increase width to at least 44px (current: 43px)"] := by
  have hjr : jsRound (43 : ℚ) = 43 := by
    unfold jsRound
    norm_num
  refine ⟨?_, ?_, by decide, by decide, by decide, ?_⟩
  · simp [validateTouchTarget, TOUCH_TARGET_SIZE_MINIMUM, decide_eq_true_eq]
  · simp [validateTouchTarget, TOUCH_TARGET_SIZE_MINIMUM, decide_eq_true_eq]
  · simp [validateTouchTarget, TOUCH_TARGET_SIZE_MINIMUM, widthRecommendation,
      heightRecommendation, hjr]
    decide

/-- Witness for claim C5 at the 43 by 44 rectangle from the claim. -/
theorem validateTouchTarget_spec_witness :
    ((validateTouchTarget ⟨43, 44⟩).isValid = true ↔
      ((44 : ℚ) ≤ 43 ∧ (44 : ℚ) ≤ 44)) ∧
    (validateTouchTarget ⟨43, 44⟩).recommendations =
      ((if (44 : ℚ) ≤ 43 then [] else [widthRecommendation ⟨43, 44⟩]) ++
       (if (44 : ℚ) ≤ 44 then [] else [heightRecommendation ⟨43, 44⟩])) ∧
    (validateTouchTarget ⟨44, 44⟩).isValid = true ∧
    (validateTouchTarget ⟨44, 44⟩).recommendations = [] ∧
    (validateTouchTarget ⟨43, 44⟩).isValid = false ∧
    (validateTouchTarget ⟨43, 44⟩).recommendations =
      ["Increase width to at least 44px (current: 43px)"] :=
  validateTouchTarget_spec ⟨43, 44⟩

/-- Observable outcome of one `trapFocus` keydown dispatch. -/
structure TrapResult where
  defaultPrevented : Bool
  focusTarget : Option Nat
deriving DecidableEq

/--
`focusUtils.trapFocus` from src/lib/accessibility.ts.  DOM elements are
opaque numeric identifiers; `focusableElements` is the freshly queried
focusable list of the container in traversal order, `activeElement` is
`document.activeElement`, and `firstElement` and `lastElement` are its head
and last entry (`undefined`, i.e. `none`, on an empty list).  Calling
`.focus()` on `undefined` would throw, which the `Except.error` branch
records.
-/
def trapFocus (focusableElements : List Nat) (activeElement : Nat)
    (shiftKey : Bool) (key : String) : Except String TrapResult :=
  if key != "Tab" then .ok ⟨false, none⟩
  else if shiftKey then
    if focusableElements.head? = some activeElement then
      match focusableElements.getLast? with
      | some lastElement => .ok ⟨true, some lastElement⟩
      | none => .error "TypeError: cannot focus undefined"
    else .ok ⟨false, none⟩
  else
    if focusableElements.getLast? = some activeElement then
      match focusableElements.head? with
      | some firstElement => .ok ⟨true, some firstElement⟩
      | none => .error "TypeError: cannot focus undefined"
    else .ok ⟨false, none⟩

/--
Claim C6 — on a nonempty focusable set, Tab on the last element wraps the
focus to the first element and Shift+Tab on the first element wraps to the
last element, both suppressing default; in every other case the event is
left unmodified (no preventDefault, no focus move).
-/
theorem trapFocus_wrap (first : Nat) (rest : List Nat) (active : Nat)
    (shiftKey : Bool) :
    trapFocus (first :: rest) active shiftKey "Tab" =
      (if shiftKey then
        (if active = first then Except.ok ⟨true, some (rest.getLastD first)⟩
         else Except.ok ⟨false, none⟩)
      else
        (if active = rest.getLastD first then Except.ok ⟨true, some first⟩
         else Except.ok ⟨false, none⟩)) := by
  have hlast : (first :: rest).getLast? = some (rest.getLastD first) := by
    simp [List.getLast?_cons]
  cases shiftKey
  · by_cases hc : active = rest.getLastD first
    · simp [trapFocus, hlast, hc]
    · have hc1 : rest.getLast?.getD first ≠ active := by
        simpa [List.getLastD_eq_getLast?] using Ne.symm hc
      have hc2 : active ≠ rest.getLast?.getD first := fun h => hc1 h.symm
      simp [trapFocus, hlast, hc1, hc2]
  · by_cases hc : active = first
    · simp [trapFocus, hlast, hc]
    · simp [trapFocus, hlast, hc, Ne.symm hc]

/--
Claim C7 — a trap over a container with zero focusable elements is a silent
no-op for every key event: no error is raised, default is not prevented and
focus is not moved.
-/
theorem trapFocus_empty (active : Nat) (shiftKey : Bool) (key : String) :
    trapFocus [] active shiftKey key = .ok ⟨false, none⟩ := by
  unfold trapFocus
  by_cases hk : (key != "Tab") = true
  · rw [if_pos hk]
  · rw [if_neg hk]
    cases shiftKey <;> simp

/-- Witness for claim C6 on the set `[1, 2, 3]` with focus on the last element. -/
theorem trapFocus_wrap_witness :
    trapFocus [1, 2, 3] 3 false "Tab" =
      (if false then
        (if 3 = 1 then Except.ok ⟨true, some ([2, 3].getLastD 1)⟩
         else Except.ok ⟨false, none⟩)
      else
        (if 3 = [2, 3].getLastD 1 then Except.ok ⟨true, some 1⟩
         else Except.ok ⟨false, none⟩)) :=
  trapFocus_wrap 1 [2, 3] 3 false

/-- Witness for claim C7 at a concrete event. -/
theorem trapFocus_empty_witness :
    trapFocus [] 7 true "Tab" = .ok ⟨false, none⟩ :=
  trapFocus_empty 7 true "Tab"

/-- A registered binding of `useKeyboardShortcuts`; the optional modifier
fields model the optional TypeScript fields (`undefined` is `none`), and the
binding identity stands in for its `action` callback. -/
structure KeyboardShortcut where
  key : String
  description : String
  ctrlKey : Option Bool
  altKey : Option Bool
  shiftKey : Option Bool
deriving DecidableEq

/-- An incoming keydown event together with the facts about its target that
`handleKeyDown` inspects. -/
structure KeyEvent where
  key : String
  ctrlKey : Bool
  altKey : Bool
  shiftKey : Bool
  targetTagName : String
  targetIsContentEditable : Bool
deriving DecidableEq

/-- JavaScript `!!` on an optional boolean field. -/
def jsDoubleBang (b : Option Bool) : Bool :=
  b.getD false

/-- `key.toLowerCase()`, as the character-wise lowercasing of the string. -/
def jsToLower (s : String) : List Char :=
  s.toList.map Char.toLower

/-- The predicate of `shortcuts.find` in `handleKeyDown`: case-insensitive
key equality and exact equality of the three double-banged modifier flags. -/
def shortcutMatches (s : KeyboardShortcut) (e : KeyEvent) : Bool :=
  jsToLower s.key == jsToLower e.key &&
  jsDoubleBang s.ctrlKey == e.ctrlKey &&
  jsDoubleBang s.altKey == e.altKey &&
  jsDoubleBang s.shiftKey == e.shiftKey

/-- The typing-suppression test of `handleKeyDown`:
`target.tagName === 'INPUT' || target.tagName === 'TEXTAREA' || target.isContentEditable`. -/
def isTextInputTarget (e : KeyEvent) : Bool :=
  e.targetTagName == "INPUT" || e.targetTagName == "TEXTAREA" ||
    e.targetIsContentEditable

/-- Observable outcome of one `handleKeyDown` call: whether `preventDefault`
ran and which binding (if any) had its action invoked. -/
structure DispatchResult where
  defaultPrevented : Bool
  dispatched : Option KeyboardShortcut
deriving DecidableEq

/-- `handleKeyDown` from the keyboard shortcuts hook. -/
def handleKeyDown (isEnabled : Bool) (shortcuts : List KeyboardShortcut)
    (e : KeyEvent) : DispatchResult :=
  if !isEnabled then ⟨false, none⟩
  else if isTextInputTarget e then ⟨false, none⟩
  else
    match shortcuts.find? (fun s => shortcutMatches s e) with
    | some s => ⟨true, some s⟩
    | none => ⟨false, none⟩

/--
Claim C4 — with the hook enabled: a text-input-capable target suppresses all
dispatch; otherwise default is prevented iff some binding matches, any
binding that runs is a registered matching one, an event matched by no
binding passes through unmodified, and the matching rule is case-insensitive
key equality plus exact three-modifier equality with absent modifiers read
as `false` (must not be held).
-/
theorem handleKeyDown_spec (shortcuts : List KeyboardShortcut) (e : KeyEvent) :
    (isTextInputTarget e = true → handleKeyDown true shortcuts e = ⟨false, none⟩) ∧
    (isTextInputTarget e = false →
      (((handleKeyDown true shortcuts e).defaultPrevented = true) ↔
        ∃ s ∈ shortcuts, shortcutMatches s e = true) ∧
      (∀ s : KeyboardShortcut, (handleKeyDown true shortcuts e).dispatched = some s →
        s ∈ shortcuts ∧ shortcutMatches s e = true) ∧
      ((∀ s ∈ shortcuts, shortcutMatches s e = false) →
        handleKeyDown true shortcuts e = ⟨false, none⟩) ∧
      ((handleKeyDown true shortcuts e).defaultPrevented =
        (handleKeyDown true shortcuts e).dispatched.isSome)) ∧
    (∀ s : KeyboardShortcut,
      shortcutMatches s e = true ↔
        (jsToLower s.key = jsToLower e.key ∧
         s.ctrlKey.getD false = e.ctrlKey ∧
         s.altKey.getD false = e.altKey ∧
         s.shiftKey.getD false = e.shiftKey)) := by
  refine ⟨?_, ?_, ?_⟩
  · intro h
    simp [handleKeyDown, h]
  · intro h
    unfold handleKeyDown
    rw [show (!true) = false from rfl, if_neg (by simp), if_neg (by simp [h])]
    cases hf : shortcuts.find? (fun s => shortcutMatches s e)
    · have hnone := List.find?_eq_none.mp hf
      refine ⟨⟨fun h' => absurd h' (by simp), ?_⟩, ?_, fun _ => rfl, rfl⟩
      · rintro ⟨s, hs, hm⟩
        exact absurd hm (hnone s hs)
      · intro s hs
        exact absurd hs (by simp)
    · rename_i s0
      have hmem := List.mem_of_find?_eq_some hf
      have hmatch := List.find?_some hf
      refine ⟨⟨fun _ => ⟨s0, hmem, hmatch⟩, fun _ => rfl⟩, ?_, fun hall => ?_, rfl⟩
      · intro s hs
        have : s0 = s := by simpa using hs
        subst this
        exact ⟨hmem, hmatch⟩
      · exact absurd hmatch (by simp [hall s0 hmem])
  · intro s
    unfold shortcutMatches jsDoubleBang
    simp [Bool.and_eq_true, beq_iff_eq]
    tauto

/-- The registered `Alt+1` navigation binding of the shortcuts hook. -/
def altHomeShortcut : KeyboardShortcut :=
  { key := "1", description := "Go to Home page",
    ctrlKey := none, altKey := some true, shiftKey := none }

/-- `Alt+1` pressed while a plain `<div>` has focus. -/
def divAltOneEvent : KeyEvent :=
  { key := "1", ctrlKey := false, altKey := true, shiftKey := false,
    targetTagName := "DIV", targetIsContentEditable := false }

/-- `Alt+1` pressed while a text-input field has focus. -/
def inputAltOneEvent : KeyEvent :=
  { key := "1", ctrlKey := false, altKey := true, shiftKey := false,
    targetTagName := "INPUT", targetIsContentEditable := false }

/--
Witness for claim C4: the `Alt+1` binding fires on a `<div>` target with
default suppressed, and the same key chord on a text-input target is
suppressed entirely.
-/
theorem handleKeyDown_spec_witness :
    handleKeyDown true [altHomeShortcut] divAltOneEvent =
      ⟨true, some altHomeShortcut⟩ ∧
    handleKeyDown true [altHomeShortcut] inputAltOneEvent = ⟨false, none⟩ :=
  ⟨by decide,
   (handleKeyDown_spec [altHomeShortcut] inputAltOneEvent).1 (by decide)⟩

/-- The two urgency levels of the status announcer. -/
inductive Urgency where
  | polite
  | assertive
deriving DecidableEq

/--
State of the status announcer: the single live-region slot (the
`announcement` React state, read by the host's `aria-live` region) plus the
pending `setTimeout` clears, each an (absolute fire time, value to write)
pair in scheduling order.
-/
structure AnnouncerState where
  slot : String
  timers : List (Nat × String)
deriving DecidableEq

/-- `const timeout = priority === 'assertive' ? 2000 : 1000` from
`useScreenReaderAnnouncement`. -/
def clearDelay (priority : Urgency) : Nat :=
  if priority = Urgency.assertive then 2000 else 1000

/--
`announce(message, priority)` from `useScreenReaderAnnouncement`: one
synchronous write of `message` to the slot, plus one scheduled write of the
empty string after the urgency-dependent delay.  The second component is the
list of slot values written synchronously by the call, in order.
-/
def announce (now : Nat) (message : String) (priority : Urgency)
    (st : AnnouncerState) : AnnouncerState × List String :=
  (⟨message, st.timers ++ [(now + clearDelay priority, "")]⟩, [message])

/-- Deliver every pending timer due at or before time `t`, in scheduling
order; later-due timers stay pending. -/
def fireDueTimers (t : Nat) (st : AnnouncerState) : AnnouncerState :=
  ⟨st.timers.foldl (fun s p => if p.1 ≤ t then p.2 else s) st.slot,
   st.timers.filter (fun p => decide (t < p.1))⟩

/--
How many mutations an `aria-live` region observes when the given writes are
applied to a slot currently holding `slot`: a live region reacts only when
the text actually changes, so writes of the current value count zero.
-/
def liveRegionChanges (slot : String) (writes : List String) : Nat :=
  (writes.foldl (fun acc w => (acc.1 + (if w = acc.2 then 0 else 1), w))
    ((0 : Nat), slot)).1

/--
Counterexample to claim C2: announcing `X` twice (the second call 500 ms
after the first, well before the 1000 ms polite clear delay) makes the
second call perform the single write `[X]` — not the claimed empty write
followed by `X` — and since the slot already holds `X`, the live region
observes no mutation from it: one observable change in total, not two.
-/
theorem announce_reannounce_counterexample :
    (announce 500 "X" Urgency.polite
        (fireDueTimers 500 (announce 0 "X" Urgency.polite ⟨"", []⟩).1)).2 = ["X"] ∧
    (announce 500 "X" Urgency.polite
        (fireDueTimers 500 (announce 0 "X" Urgency.polite ⟨"", []⟩).1)).2 ≠ ["", "X"] ∧
    500 < 0 + clearDelay Urgency.polite ∧
    (fireDueTimers 500 (announce 0 "X" Urgency.polite ⟨"", []⟩).1).slot = "X" ∧
    (announce 500 "X" Urgency.polite
        (fireDueTimers 500 (announce 0 "X" Urgency.polite ⟨"", []⟩).1)).1.slot = "X" ∧
    liveRegionChanges "X"
      (announce 500 "X" Urgency.polite
        (fireDueTimers 500 (announce 0 "X" Urgency.polite ⟨"", []⟩).1)).2 = 0 ∧
    liveRegionChanges "" (announce 0 "X" Urgency.polite ⟨"", []⟩).2 +
      liveRegionChanges "X"
        (announce 500 "X" Urgency.polite
          (fireDueTimers 500 (announce 0 "X" Urgency.polite ⟨"", []⟩).1)).2 = 1 := by
  decide

/--
Claim C2 as amended — re-announcing the same nonempty message before the
clear delay performs exactly one synchronous write of the message; the slot,
already holding that message, never changes during the second call (no
intermediate clear to the empty string), so only the first call produces an
observable live-region change.
-/
theorem announce_reannounce_spec (t1 t2 : Nat) (x : String) (p1 p2 : Urgency)
    (st : AnnouncerState) (hT : st.timers = []) (hbefore : t2 < t1 + clearDelay p1)
    (hx : st.slot ≠ x) :
    (fireDueTimers t2 (announce t1 x p1 st).1).slot = x ∧
    (announce t2 x p2 (fireDueTimers t2 (announce t1 x p1 st).1)).2 = [x] ∧
    (announce t2 x p2 (fireDueTimers t2 (announce t1 x p1 st).1)).1.slot = x ∧
    liveRegionChanges st.slot (announce t1 x p1 st).2 = 1 ∧
    liveRegionChanges (fireDueTimers t2 (announce t1 x p1 st).1).slot
      (announce t2 x p2 (fireDueTimers t2 (announce t1 x p1 st).1)).2 = 0 := by
  have hmid : (fireDueTimers t2 (announce t1 x p1 st).1).slot = x := by
    simp only [announce, fireDueTimers, hT, List.nil_append, List.foldl_cons,
      List.foldl_nil]
    rw [if_neg (by omega)]
  refine ⟨hmid, rfl, rfl, ?_, ?_⟩
  · simp only [announce, liveRegionChanges, List.foldl_cons, List.foldl_nil]
    rw [if_neg (fun h => hx h.symm)]
  · rw [hmid]
    simp [announce, liveRegionChanges]

/-- Witness for the amended claim C2 at `X`, announced at 0 ms and 500 ms. -/
theorem announce_reannounce_spec_witness :
    (fireDueTimers 500 (announce 0 "X" Urgency.polite ⟨"", []⟩).1).slot = "X" ∧
    (announce 500 "X" Urgency.polite
        (fireDueTimers 500 (announce 0 "X" Urgency.polite ⟨"", []⟩).1)).2 = ["X"] ∧
    (announce 500 "X" Urgency.polite
        (fireDueTimers 500 (announce 0 "X" Urgency.polite ⟨"", []⟩).1)).1.slot = "X" ∧
    liveRegionChanges (AnnouncerState.mk "" []).slot
      (announce 0 "X" Urgency.polite ⟨"", []⟩).2 = 1 ∧
    liveRegionChanges (fireDueTimers 500 (announce 0 "X" Urgency.polite ⟨"", []⟩).1).slot
      (announce 500 "X" Urgency.polite
        (fireDueTimers 500 (announce 0 "X" Urgency.polite ⟨"", []⟩).1)).2 = 0 :=
  announce_reannounce_spec 0 500 "X" Urgency.polite Urgency.polite ⟨"", []⟩
    rfl (by decide) (by decide)

/--
Claim C3 — an announcement with no intervening call self-clears after
exactly the urgency-dependent delay: the slot still holds the message
strictly before `now + delay`, and holds the empty string from `now + delay`
on, with the delay 1000 ms for polite and 2000 ms for assertive.
-/
theorem announce_self_clears (now t : Nat) (message : String) (priority : Urgency)
    (st : AnnouncerState) (hT : st.timers = []) :
    clearDelay Urgency.polite = 1000 ∧
    clearDelay Urgency.assertive = 2000 ∧
    (t < now + clearDelay priority →
      (fireDueTimers t (announce now message priority st).1).slot = message) ∧
    (now + clearDelay priority ≤ t →
      (fireDueTimers t (announce now message priority st).1).slot = "" ∧
      (fireDueTimers t (announce now message priority st).1).timers = []) := by
  refine ⟨rfl, rfl, ?_, ?_⟩
  · intro hlt
    simp only [announce, fireDueTimers, hT, List.nil_append, List.foldl_cons,
      List.foldl_nil]
    rw [if_neg (by omega)]
  · intro hge
    have hnot : ¬ t < now + clearDelay priority := by omega
    constructor
    · simp only [announce, fireDueTimers, hT, List.nil_append, List.foldl_cons,
        List.foldl_nil]
      rw [if_pos (by omega)]
    · simp only [announce, fireDueTimers, hT, List.nil_append]
      simp [hnot]

/-- Witness for claim C3: an assertive announcement made at 0 ms, observed
at 2000 ms. -/
theorem announce_self_clears_witness :
    clearDelay Urgency.polite = 1000 ∧
    clearDelay Urgency.assertive = 2000 ∧
    (2000 < 0 + clearDelay Urgency.assertive →
      (fireDueTimers 2000 (announce 0 "Saved" Urgency.assertive ⟨"", []⟩).1).slot =
        "Saved") ∧
    (0 + clearDelay Urgency.assertive ≤ 2000 →
      (fireDueTimers 2000 (announce 0 "Saved" Urgency.assertive ⟨"", []⟩).1).slot = "" ∧
      (fireDueTimers 2000 (announce 0 "Saved" Urgency.assertive ⟨"", []⟩).1).timers = []) :=
  announce_self_clears 0 2000 "Saved" Urgency.assertive ⟨"", []⟩ rfl

/-- `A11Y_CONSTANTS.ANNOUNCEMENT_TIMEOUT` from src/lib/accessibility.ts. -/
def A11Y_ANNOUNCEMENT_TIMEOUT : Nat := 1000

/-- `A11Y_CONSTANTS.URGENT_ANNOUNCEMENT_TIMEOUT` from src/lib/accessibility.ts. -/
def A11Y_URGENT_ANNOUNCEMENT_TIMEOUT : Nat := 2000

/-- The announcer delays agree with the published accessibility constants. -/
theorem clearDelay_eq_constants :
    clearDelay Urgency.polite = A11Y_ANNOUNCEMENT_TIMEOUT ∧
    clearDelay Urgency.assertive = A11Y_URGENT_ANNOUNCEMENT_TIMEOUT :=
  ⟨rfl, rfl⟩

/-- Witness for claim C9: one malformed and one well-formed input, and two
well-formed inputs. -/
theorem getContrastRatio_error_iff_witness :
    (getContrastRatio "GGGGGG" "000000" = .error "Invalid hex color format" ↔
      (isWellFormedHexColor "GGGGGG" = false ∨
        isWellFormedHexColor "000000" = false)) ∧
    ((∃ r, getContrastRatio "GGGGGG" "000000" = .ok r) ↔
      (isWellFormedHexColor "GGGGGG" = true ∧
        isWellFormedHexColor "000000" = true)) :=
  getContrastRatio_error_iff "GGGGGG" "000000"
